import Mathlib

/-!
Verification development for the SurrealDB repository fragment: the SQL
parser core (`src/core/src/syn/parser/prime.rs`), the RPC dispatch core
(`src/core/src/rpc/rpc_context.rs`) and the error taxonomy
(`src/core/src/err/mod.rs`).

The Rust sources are shallowly embedded: pure functions become Lean
functions, stateful trait methods become explicit state passing, fallible
code returns `Except`, and Rust panics are modelled by a dedicated
`Outcome.panic` constructor.  Types that live outside the three given
source files (the `Value` AST, `Session`, the `Take` parameter protocol,
the token stream, the external KV-backend error types) are modelled from
the specification; each such definition carries a doc comment saying so.
-/

namespace Surreal

/-- Modelled from the spec: a fully-typed statement AST (`SELECT`, `CREATE`,
… bodies, parsed by statement parsers outside the given sources).  The tag
stands for an arbitrary statement body. -/
structure Stmt where
  tag : Nat
deriving DecidableEq, Repr

mutual

/-- Modelled from the spec (§3 "Value", `sql::Value`, outside the given
sources): the fragment of the universal data carrier used by the embedded
code.  Constructors keep the source's variant names. -/
inductive Value where
  | none : Value
  | null : Value
  | bool (b : Bool) : Value
  | int (i : Int) : Value
  | strand (s : String) : Value
  | uuid (u : String) : Value
  | array (vs : List Value) : Value
  | object (o : List (String × Value)) : Value
  | thing (tb id : String) : Value
  | idiom (parts : List Part) : Value
  | table (t : String) : Value
  | mock (m : Mock) : Value
  | subquery (s : Subquery) : Value
  | query (q : QueryAst) : Value
  | function (f : Func) : Value
  | model (m : ModelV) : Value

/-- Modelled from the spec (§3 "Idiom", `sql::Part`, outside the given
sources): the idiom part fragment needed by the parser embedding. -/
inductive Part where
  | field (name : String) : Part
  | start (v : Value) : Part
  | all : Part
  | index (i : Int) : Part

/-- `sql::Mock`: a synthetic record generator, `|name:n|` or `|name:a..b|`.
Modelled from the spec; the count/range payloads are the source's `u64`s. -/
inductive Mock where
  | count (name : String) (n : Nat) : Mock
  | range (name : String) (lo hi : Nat) : Mock

/-- The subquery AST produced by `parse_inner_subquery` (`sql::Subquery`);
statement payloads are the abstract `Stmt`. -/
inductive Subquery where
  | output (s : Stmt) : Subquery
  | selectS (s : Stmt) : Subquery
  | createS (s : Stmt) : Subquery
  | upsertS (s : Stmt) : Subquery
  | updateS (s : Stmt) : Subquery
  | deleteS (s : Stmt) : Subquery
  | relateS (s : Stmt) : Subquery
  | defineS (s : Stmt) : Subquery
  | removeS (s : Stmt) : Subquery
  | rebuildS (s : Stmt) : Subquery
  | value (v : Value) : Subquery

/-- Modelled from the spec (§3 "Function", `sql::Function`): the function
fragment built by the `run` RPC handler. -/
inductive Func where
  | normal (name : String) (args : List Value) : Func
  | custom (name : String) (args : List Value) : Func
  | anonymous (subject : Value) (args : List Value) : Func

/-- Modelled from the spec: `sql::Model`, an ML function invocation with a
mandatory version, built by the `run` RPC handler for `ml::` names. -/
inductive ModelV where
  | mk (name version : String) (args : List Value) : ModelV

/-- Modelled from the spec: the parsed query AST (`sql::Query`, outside the
given sources).  It is opaque to the RPC layer — `parsed` stands for an
arbitrary pre-parsed query — except that `run` wraps a single value
statement into a query (`Statement::Value(func).into()`), kept here as
`valueStmt`. -/
inductive QueryAst where
  | parsed (tag : Nat) : QueryAst
  | valueStmt (v : Value) : QueryAst

end

/-- Modelled from the spec: the display form of a `Value` (`impl Display for
sql::Value`, outside the given sources).  Only its existence matters to the
claims below; the rendering follows the spec's surface syntax. -/
def Value.display : Value → String
  | .none => "NONE"
  | .null => "NULL"
  | .bool true => "true"
  | .bool false => "false"
  | .int i => toString i
  | .strand s => "'" ++ s ++ "'"
  | .uuid u => "u'" ++ u ++ "'"
  | .array _ => "[...]"
  | .object _ => "\x7b...\x7d"
  | .thing tb id => tb ++ ":" ++ id
  | .idiom _ => "<idiom>"
  | .table t => t
  | .mock (.count n c) => "|" ++ n ++ ":" ++ toString c ++ "|"
  | .mock (.range n a b) => "|" ++ n ++ ":" ++ toString a ++ ".." ++ toString b ++ "|"
  | .subquery _ => "<subquery>"
  | .query _ => "<query>"
  | .function _ => "<function>"
  | .model _ => "<model>"

/-! ## The error taxonomy (`src/core/src/err/mod.rs`)

The source enum has ~180 variants; the embedding keeps the variants that the
given sources construct or inspect, plus representatives of the untouched
remainder so that the catch-all arms of the source matches stay meaningful. -/

inductive Error where
  | tx (msg : String)
  | txKeyAlreadyExists
  | txConditionNotMet
  | txKeyTooLarge
  | txValueTooLarge
  | txTooLarge
  | ds (msg : String)
  | invalidAuth
  | invalidRegex (msg : String)
  | channel (msg : String)
  | http (msg : String)
  | internal (msg : String)
  | coerceTo (fromVal : Value) (into : String)
  | convertTo (fromVal : Value) (into : String)
  | setCheck (name value check : String)
  | functionCheck (name value check : String)
  | invalidQuery (msg : String)
  | queryCancelled
  | ignore
  | returnV (value : Value)

/-- `impl Error { pub fn set_check_from_coerce(self, name: String) -> Error }`
(err/mod.rs:1212-1224): rewrite a generic `CoerceTo` into `SetCheck`, pass
every other variant through. -/
def Error.set_check_from_coerce (e : Error) (name : String) : Error :=
  match e with
  | .coerceTo fromVal into => .setCheck name fromVal.display into
  | e => e

/-- `impl Error { pub fn function_check_from_coerce(self, name) -> Error }`
(err/mod.rs:1226-1238): rewrite a generic `CoerceTo` into `FunctionCheck`,
pass every other variant through. -/
def Error.function_check_from_coerce (e : Error) (name : String) : Error :=
  match e with
  | .coerceTo fromVal into => .functionCheck name fromVal.display into
  | e => e

/-! ### Backend error conversions (err/mod.rs:1104-1164)

The backend error types come from external crates (`echodb`, `indxdb`,
`tikv`, `rocksdb`, `surrealkv`, `foundationdb`); each is modelled with the
variants the source match arms name plus an `other` catch-all carrying the
display string the `_ => Error::Tx(e.to_string())` arm would use. -/

/-- Modelled from the spec: `echodb::err::Error` — the two variants named by
the source match plus the remaining ones abstracted as `other`. -/
inductive EchoDbError where
  | keyAlreadyExists
  | valNotExpectedValue
  | other (msg : String)
deriving DecidableEq

def EchoDbError.display : EchoDbError → String
  | .keyAlreadyExists => "The key being inserted already exists"
  | .valNotExpectedValue => "The value is not what was expected"
  | .other msg => msg

/-- Modelled from the spec: `indxdb::err::Error` — same shape as echodb's. -/
inductive IndxDbError where
  | keyAlreadyExists
  | valNotExpectedValue
  | other (msg : String)
deriving DecidableEq

def IndxDbError.display : IndxDbError → String
  | .keyAlreadyExists => "The key being inserted already exists"
  | .valNotExpectedValue => "The value is not what was expected"
  | .other msg => msg

/-- Modelled from the spec: `tikv::Error` — the variants the source match
names (`DuplicateKeyInsertion`, `KeyError` with its `abort` message,
`RegionError` with its `raft_entry_too_large` flag) plus `other`. -/
inductive TikvError where
  | duplicateKeyInsertion
  | keyError (abort : String)
  | regionError (raftEntryTooLarge : Bool)
  | other (msg : String)
deriving DecidableEq

def TikvError.display : TikvError → String
  | .duplicateKeyInsertion => "duplicate key insertion"
  | .keyError abort => "key error: " ++ abort
  | .regionError _ => "region error"
  | .other msg => msg

/-- Modelled from the spec: `rocksdb::Error` is an opaque status wrapping a
message string. -/
structure RocksDbError where
  msg : String
deriving DecidableEq

/-- Modelled from the spec: `surrealkv::Error`, abstracted to its display
message like rocksdb's. -/
structure SurrealKvError where
  msg : String
deriving DecidableEq

/-- Modelled from the spec: `foundationdb::FdbError`, abstracted to its
display message. -/
structure FdbError where
  msg : String
deriving DecidableEq

/-- Modelled from the spec: `foundationdb::TransactionCommitError`,
abstracted to its display message. -/
structure FdbCommitError where
  msg : String
deriving DecidableEq

/-- `impl From<echodb::err::Error> for Error` (err/mod.rs:1104-1113). -/
def errorFromEchoDb : EchoDbError → Error
  | .keyAlreadyExists => .txKeyAlreadyExists
  | .valNotExpectedValue => .txConditionNotMet
  | e => .tx e.display

/-- `impl From<indxdb::err::Error> for Error` (err/mod.rs:1115-1124). -/
def errorFromIndxDb : IndxDbError → Error
  | .keyAlreadyExists => .txKeyAlreadyExists
  | .valNotExpectedValue => .txConditionNotMet
  | e => .tx e.display

/-- Models Rust's `str::contains(pattern)`: the pattern occurs as a
contiguous substring. -/
def strContains (s pat : String) : Bool :=
  decide (pat.toList <:+: s.toList)

/-- `impl From<tikv::Error> for Error` (err/mod.rs:1126-1136), including the
two guarded arms. -/
def errorFromTikv : TikvError → Error
  | .duplicateKeyInsertion => .txKeyAlreadyExists
  | .keyError abort =>
    if strContains abort "KeyTooLarge" then .txKeyTooLarge
    else .tx (TikvError.keyError abort).display
  | .regionError raft =>
    if raft then .txTooLarge else .tx (TikvError.regionError raft).display
  | .other msg => .tx (TikvError.other msg).display

/-- `impl From<rocksdb::Error> for Error` (err/mod.rs:1138-1143): every
rocksdb error becomes a generic `Tx(msg)`. -/
def errorFromRocksDb (e : RocksDbError) : Error :=
  .tx e.msg

/-- `impl From<surrealkv::Error> for Error` (err/mod.rs:1145-1150): every
surrealkv error becomes a generic `Tx(msg)`. -/
def errorFromSurrealKv (e : SurrealKvError) : Error :=
  .tx e.msg

/-- `impl From<foundationdb::FdbError> for Error` (err/mod.rs:1152-1157). -/
def errorFromFdb (e : FdbError) : Error :=
  .ds e.msg

/-- `impl From<foundationdb::TransactionCommitError> for Error`
(err/mod.rs:1159-1164). -/
def errorFromFdbCommit (e : FdbCommitError) : Error :=
  .tx e.msg

/-- The display form of the embedded `Error` variants, from the `#[error]`
attributes in err/mod.rs (`impl From<Error> for String` uses it, and the
type serialises as this single string). -/
def Error.display : Error → String
  | .tx msg => "There was a problem with a datastore transaction: " ++ msg
  | .txKeyAlreadyExists => "The key being inserted already exists"
  | .txConditionNotMet => "Value being checked was not correct"
  | .txKeyTooLarge => "Record id or key is too large"
  | .txValueTooLarge => "Record or value is too large"
  | .txTooLarge => "Transaction is too large"
  | .ds msg => "There was a problem with the underlying datastore: " ++ msg
  | .invalidAuth => "There was a problem with authentication"
  | .invalidRegex msg => "Invalid regular expression: " ++ msg
  | .channel msg => "There was an error with the remote request: " ++ msg
  | .http msg => "There was an error with the remote request: " ++ msg
  | .internal msg => "Internal database error: " ++ msg
  | .coerceTo fromVal into =>
      "Expected a " ++ into ++ " but found " ++ fromVal.display
  | .convertTo fromVal into =>
      "Expected a " ++ into ++ " but cannot convert " ++ fromVal.display
        ++ " into a " ++ into
  | .setCheck name value check =>
      "Found " ++ value ++ " for param $" ++ name ++ ", but expected a " ++ check
  | .functionCheck name value check =>
      "There was a problem running the " ++ name
        ++ " function. Expected this function to return a value of type "
        ++ check ++ ", but found " ++ value
  | .invalidQuery msg => "Parse error: " ++ msg
  | .queryCancelled => "The query was not executed due to a cancelled transaction"
  | .ignore => "Conditional clause is not truthy"
  | .returnV _ => "Return statement has been reached"

/-! ## The RPC dispatch core (`src/core/src/rpc/rpc_context.rs`)

`RpcContext` is a trait with default method bodies over per-connection
state (`Session` plus a variable store) and external collaborators (the
`Datastore` storage engine and the IAM functions).  The embedding passes
the state explicitly and bundles the collaborators in `RpcHost`. -/

/-- Modelled from the spec (§3 "Session", `dbs::Session`, outside the given
sources): the per-connection state fields the given sources touch — the
optional namespace and database, an abstract authentication principal, and
the realtime flag. -/
structure Session where
  ns : Option String := Option.none
  db : Option String := Option.none
  au : String := ""
  rt : Bool := false
deriving DecidableEq, Repr

/-- `Default::default()` for `Session`, produced by `mem::take`. -/
def sessionDefault : Session := {}

/-- The session variable store, `BTreeMap<String, Value>`: modelled as an
association list kept sorted by key, matching the ordered-map semantics. -/
abbrev Vars := List (String × Value)

/-- `BTreeMap::insert`: replace the binding of the key, keeping keys sorted. -/
def varsInsert : Vars → String → Value → Vars
  | [], k, v => [(k, v)]
  | (k', v') :: rest, k, v =>
    if k < k' then (k, v) :: (k', v') :: rest
    else if k = k' then (k, v) :: rest
    else (k', v') :: varsInsert rest k v

/-- `BTreeMap::remove`: drop the binding of the key if present. -/
def varsRemove : Vars → String → Vars
  | [], _ => []
  | (k', v') :: rest, k =>
    if k = k' then rest else (k', v') :: varsRemove rest k

/-- Modelled from the spec (§6): the `RpcError` taxonomy for client-visible
dispatch failures (`rpc::rpc_error`, outside the given sources). -/
inductive RpcError where
  | methodNotFound
  | invalidParams
  | invalidRequest
  | parseError
  | badLQConfig
  | badGQLConfig
  | thrown (msg : String)
deriving DecidableEq, Repr

/-- The result of running a handler: a value, a client-visible `RpcError`,
or a Rust panic (`panic!`/out-of-bounds/`unreachable!`), which the source
does not catch. -/
inductive Outcome (α : Type) where
  | ok (a : α) : Outcome α
  | err (e : RpcError) : Outcome α
  | panic : Outcome α

def Outcome.map {α β : Type} (f : α → β) : Outcome α → Outcome β
  | .ok a => .ok (f a)
  | .err e => .err e
  | .panic => .panic

/-- Modelled from the spec (§7): `impl From<Error> for RpcError`
(`rpc::rpc_error`, outside the given sources) — engine failures surface to
the client carrying the error's display message. -/
def rpcErrorFromError (e : Error) : RpcError :=
  .thrown e.display

/-- `dbs::QueryType`: drives the live-query post-processing hooks. -/
inductive QueryType where
  | other
  | live
  | kill
deriving DecidableEq, Repr

/-- Modelled from the spec (§6): `dbs::Response`, the result of executing
one statement. -/
structure Response where
  result : Except Error Value
  time : Nat := 0
  query_type : QueryType := .other

/-- A record of one invocation of the storage engine, used to state that a
code path never touches the engine. -/
inductive EngineCall where
  | executeCall (sql : String) (sess : Session) (vars : Option Vars)
  | processCall (q : QueryAst) (sess : Session) (vars : Option Vars)

/-- A record of one live-query hook invocation (`handle_live`/`handle_kill`). -/
inductive LqHook where
  | live (lqid : String)
  | kill (lqid : String)
deriving DecidableEq, Repr

/-- Modelled from the spec (§6, storage engine contract): the `Datastore`
collaborator, a bundle of the three engine entry points the given sources
call. -/
structure Datastore where
  execute : String → Session → Option Vars → Except Error (List Response)
  process : QueryAst → Session → Option Vars → Except Error (List Response)
  compute : Value → Session → Option Vars → Except Error Value

/-- The dispatcher-owned mutable state: the session and the variable store
(`session_mut`/`vars_mut` of the trait). -/
structure RpcState where
  session : Session
  vars : Vars

/-- Modelled from the spec (§6, IAM collaborator; §4.2 capability gating):
the collaborators and constants of the `RpcContext` trait — the datastore,
the IAM functions (which mutate the session they are handed), the
`LQ_SUPPORT` capability constant and `version_data()`. -/
structure RpcHost where
  ds : Datastore
  iamSignup : Datastore → Session → List (String × Value) → Session × Except Error Value
  iamSignin : Datastore → Session → List (String × Value) → Session × Except Error Value
  iamToken : Datastore → Session → String → Session × Except Error Unit
  iamClear : Session → Session × Except Error Unit
  lqSupport : Bool
  versionData : Value

/-! ### The `Take` parameter protocol -/

/-- Modelled from the spec (§4.2, parameter extraction): `needs_one` of the
`Take` protocol (`rpc::args`, outside the given sources) — the required
shape or `InvalidParams`. -/
def needs_one : List Value → Except RpcError Value
  | [v] => .ok v
  | _ => .error .invalidParams

/-- Modelled from the spec: `needs_two` of the `Take` protocol. -/
def needs_two : List Value → Except RpcError (Value × Value)
  | [a, b] => .ok (a, b)
  | _ => .error .invalidParams

/-- Modelled from the spec: `needs_one_or_two` of the `Take` protocol; a
missing second argument is `Value::None`. -/
def needs_one_or_two : List Value → Except RpcError (Value × Value)
  | [a] => .ok (a, .none)
  | [a, b] => .ok (a, b)
  | _ => .error .invalidParams

/-- Modelled from the spec: `needs_one_two_or_three` of the `Take`
protocol; missing trailing arguments are `Value::None`. -/
def needs_one_two_or_three : List Value → Except RpcError (Value × Value × Value)
  | [a] => .ok (a, .none, .none)
  | [a, b] => .ok (a, b, .none)
  | [a, b, c] => .ok (a, b, c)
  | _ => .error .invalidParams

/-- Modelled from the spec: `needs_three_or_four` of the `Take` protocol. -/
def needs_three_or_four : List Value → Except RpcError (Value × Value × Value × Value)
  | [a, b, c] => .ok (a, b, c, .none)
  | [a, b, c, d] => .ok (a, b, c, d)
  | _ => .error .invalidParams

/-! ### `Value` helpers used by the handlers -/

/-- Modelled from the spec: `Value::is_thing` (sql::value, outside the
given sources). -/
def Value.is_thing : Value → Bool
  | .thing _ _ => true
  | _ => false

/-- Modelled from the spec: `Value::is_true`. -/
def Value.is_true : Value → Bool
  | .bool true => true
  | _ => false

/-- Modelled from the spec: `Value::is_none_or_null`. -/
def Value.is_none_or_null : Value → Bool
  | .none => true
  | .null => true
  | _ => false

/-- Modelled from the spec: `Value::is_query`. -/
def Value.is_query : Value → Bool
  | .query _ => true
  | _ => false

/-- Modelled from the spec: `Value::is_strand`. -/
def Value.is_strand : Value → Bool
  | .strand _ => true
  | _ => false

/-- Modelled from the spec (§4.2: "the `what` argument is coerced to a
table reference when it is a bare string"): `Value::could_be_table`. -/
def Value.could_be_table : Value → Value
  | .strand s => .table s
  | v => v

/-- Modelled from the spec (§9, open question on `info`: "first row; empty
if none"): `Value::first`. -/
def Value.first : Value → Value
  | .array (v :: _) => v
  | .array [] => .none
  | v => v

/-! ### The RPC method handlers (rpc_context.rs:101-779) -/

/-- `yuse` (rpc_context.rs:101-127): for both ns and db, string = change,
null = unset, none = do nothing; unsetting the namespace while keeping the
database set is rejected before any mutation. -/
def yuse (st : RpcState) (params : List Value) : RpcState × Outcome Value :=
  match needs_two params with
  | .error e => (st, .err e)
  | .ok (ns, db) =>
    let unset_ns : Bool := match ns with | .null => true | _ => false
    let unset_db : Bool := match db with | .null => true | _ => false
    if unset_ns && !unset_db then (st, .err .invalidParams)
    else
      let st :=
        if unset_ns then { st with session := { st.session with ns := Option.none } }
        else match ns with
          | .strand s => { st with session := { st.session with ns := some s } }
          | _ => st
      let st :=
        if unset_db then { st with session := { st.session with db := Option.none } }
        else match db with
          | .strand s => { st with session := { st.session with db := some s } }
          | _ => st
      (st, .ok .none)

/-- `signup` (rpc_context.rs:129-144): the session is `mem::take`n out,
handed to the IAM collaborator, and moved back unconditionally — also when
the collaborator fails. -/
def signup (cx : RpcHost) (st : RpcState) (params : List Value) :
    RpcState × Outcome Value :=
  match needs_one params with
  | .ok (Value.object v) =>
    let tmp_session := st.session
    let st := { st with session := sessionDefault }
    let (tmp_session, out) := cx.iamSignup cx.ds tmp_session v
    ({ st with session := tmp_session },
      match out with
      | .ok v => .ok v
      | .error e => .err (rpcErrorFromError e))
  | _ => (st, .err .invalidParams)

/-- `signin` (rpc_context.rs:146-158): same move-out/move-in shape as
`signup`. -/
def signin (cx : RpcHost) (st : RpcState) (params : List Value) :
    RpcState × Outcome Value :=
  match needs_one params with
  | .ok (Value.object v) =>
    let tmp_session := st.session
    let st := { st with session := sessionDefault }
    let (tmp_session, out) := cx.iamSignin cx.ds tmp_session v
    ({ st with session := tmp_session },
      match out with
      | .ok v => .ok v
      | .error e => .err (rpcErrorFromError e))
  | _ => (st, .err .invalidParams)

/-- `invalidate` (rpc_context.rs:160-163): clears authentication on the
session via `iam::clear`. -/
def invalidate (cx : RpcHost) (st : RpcState) : RpcState × Outcome Value :=
  let (s, r) := cx.iamClear st.session
  match r with
  | .error e => ({ st with session := s }, .err (rpcErrorFromError e))
  | .ok _ => ({ st with session := s }, .ok .none)

/-- `authenticate` (rpc_context.rs:165-173): the session is `mem::take`n
out and only moved back when token verification succeeds — the `?` on the
verify call returns before the move-in. -/
def authenticate (cx : RpcHost) (st : RpcState) (params : List Value) :
    RpcState × Outcome Value :=
  match needs_one params with
  | .ok (Value.strand token) =>
    let tmp_session := st.session
    let st := { st with session := sessionDefault }
    let (tmp_session, r) := cx.iamToken cx.ds tmp_session token
    (match r with
     | .error e => (st, .err (rpcErrorFromError e))
     | .ok _ => ({ st with session := tmp_session }, .ok .none))
  | _ => (st, .err .invalidParams)

/-- Shared result extraction of the DML handlers: `res.remove(0).result?`
followed by `.first()` when a single result was requested.  `remove(0)` on
an empty vector panics. -/
def extract_first (one : Bool) : Except Error (List Response) → Outcome Value
  | .error e => .err (rpcErrorFromError e)
  | .ok [] => .panic
  | .ok (r :: _) =>
    match r.result with
    | .error e => .err (rpcErrorFromError e)
    | .ok v => .ok (if one then v.first else v)

/-- `info` (rpc_context.rs:179-188): `SELECT * FROM $auth`, first value of
the first result. -/
def info (cx : RpcHost) (st : RpcState) : Outcome Value :=
  match cx.ds.execute "SELECT * FROM $auth" st.session Option.none with
  | .error e => .err (rpcErrorFromError e)
  | .ok [] => .panic
  | .ok (r :: _) =>
    match r.result with
    | .error e => .err (rpcErrorFromError e)
    | .ok v => .ok v.first

/-- `set` (rpc_context.rs:194-211): computes the value under the session
and the current variables extended with `key => Value::None`, then stores
it under `key` — or removes the variable when the computed value is
`None`.  There is no check on the key beyond it being a `Strand`. -/
def set (cx : RpcHost) (st : RpcState) (params : List Value) :
    RpcState × Outcome Value :=
  match needs_one_or_two params with
  | .ok (Value.strand key, val) =>
    let var := some (varsInsert st.vars key .none)
    (match cx.ds.compute val st.session var with
     | .error e => (st, .err (rpcErrorFromError e))
     | .ok .none => ({ st with vars := varsRemove st.vars key }, .ok .null)
     | .ok v => ({ st with vars := varsInsert st.vars key v }, .ok .null))
  | _ => (st, .err .invalidParams)

/-- `unset` (rpc_context.rs:213-219): removes the variable; no error when
absent. -/
def unset (st : RpcState) (params : List Value) : RpcState × Outcome Value :=
  match needs_one params with
  | .ok (Value.strand key) =>
    ({ st with vars := varsRemove st.vars key }, .ok .null)
  | _ => (st, .err .invalidParams)

/-- `handle_live_query_results` (rpc_context.rs:764-778): for a `Live`
response whose result is a `Uuid`, call `handle_live`; for a `Kill`
response likewise `handle_kill`; otherwise nothing. -/
def handle_live_query_results (r : Response) : List LqHook :=
  match r.query_type with
  | .live =>
    (match r.result with
     | .ok (.uuid u) => [.live u]
     | _ => [])
  | .kill =>
    (match r.result with
     | .ok (.uuid u) => [.kill u]
     | _ => [])
  | .other => []

/-- `query_inner` (rpc_context.rs:739-762): refuse with `BadLQConfig` when
the session has the realtime flag but `LQ_SUPPORT` is off; otherwise run a
pre-parsed query through `process` or a string through `execute` (any other
value is `unreachable!()`), then fire the live-query hooks per response.
The second and third components record the engine calls and hook calls
made. -/
def query_inner (lqSupport : Bool) (ds : Datastore) (sess : Session)
    (query : Value) (vars : Option Vars) :
    Outcome (List Response) × List EngineCall × List LqHook :=
  if !lqSupport && sess.rt then (.err .badLQConfig, [], [])
  else
    match query with
    | .query q =>
      (match ds.process q sess vars with
       | .error e => (.err (rpcErrorFromError e), [.processCall q sess vars], [])
       | .ok res =>
         (.ok res, [.processCall q sess vars], res.flatMap handle_live_query_results))
    | .strand s =>
      (match ds.execute s sess vars with
       | .error e => (.err (rpcErrorFromError e), [.executeCall s sess vars], [])
       | .ok res =>
         (.ok res, [.executeCall s sess vars], res.flatMap handle_live_query_results))
    | _ => (.panic, [], [])

/-- `kill` (rpc_context.rs:225-240): synthesise `KILL $id` and run it
through `query_inner`. -/
def kill (cx : RpcHost) (st : RpcState) (params : List Value) : Outcome Value :=
  match needs_one params with
  | .error e => .err e
  | .ok id =>
    let var := varsInsert st.vars "id" id
    match (query_inner cx.lqSupport cx.ds st.session (.strand "KILL $id") (some var)).1 with
    | .err e => .err e
    | .panic => .panic
    | .ok [] => .panic
    | .ok (r :: _) =>
      match r.result with
      | .error e => .err (rpcErrorFromError e)
      | .ok v => .ok v

/-- `live` (rpc_context.rs:242-259): synthesise `LIVE SELECT DIFF FROM $tb`
or `LIVE SELECT * FROM $tb` and run it through `query_inner`. -/
def live (cx : RpcHost) (st : RpcState) (params : List Value) : Outcome Value :=
  match needs_one_or_two params with
  | .error e => .err e
  | .ok (tb, diff) =>
    let sql := if diff.is_true then "LIVE SELECT DIFF FROM $tb" else "LIVE SELECT * FROM $tb"
    let var := varsInsert st.vars "tb" tb.could_be_table
    match (query_inner cx.lqSupport cx.ds st.session (.strand sql) (some var)).1 with
    | .err e => .err e
    | .panic => .panic
    | .ok [] => .panic
    | .ok (r :: _) =>
      match r.result with
      | .error e => .err (rpcErrorFromError e)
      | .ok v => .ok v

/-- `select` (rpc_context.rs:265-287). -/
def select (cx : RpcHost) (st : RpcState) (params : List Value) : Outcome Value :=
  match needs_one params with
  | .error _ => .err .invalidParams
  | .ok what =>
    let one := what.is_thing
    let var := some (varsInsert st.vars "what" what.could_be_table)
    extract_first one (cx.ds.execute "SELECT * FROM $what" st.session var)

/-- `insert` (rpc_context.rs:293-316). -/
def insert (cx : RpcHost) (st : RpcState) (params : List Value) : Outcome Value :=
  match needs_two params with
  | .error _ => .err .invalidParams
  | .ok (what, data) =>
    let one := what.is_thing
    let var := some (varsInsert (varsInsert st.vars "what" what.could_be_table) "data" data)
    extract_first one (cx.ds.execute "INSERT INTO $what $data RETURN AFTER" st.session var)

/-- `create` (rpc_context.rs:322-349). -/
def create (cx : RpcHost) (st : RpcState) (params : List Value) : Outcome Value :=
  match needs_one_or_two params with
  | .error _ => .err .invalidParams
  | .ok (what, data) =>
    let one := what.is_thing
    let sql := if data.is_none_or_null then "CREATE $what RETURN AFTER"
               else "CREATE $what CONTENT $data RETURN AFTER"
    let var := some (varsInsert (varsInsert st.vars "what" what.could_be_table) "data" data)
    extract_first one (cx.ds.execute sql st.session var)

/-- `upsert` (rpc_context.rs:355-382). -/
def upsert (cx : RpcHost) (st : RpcState) (params : List Value) : Outcome Value :=
  match needs_one_or_two params with
  | .error _ => .err .invalidParams
  | .ok (what, data) =>
    let one := what.is_thing
    let sql := if data.is_none_or_null then "UPSERT $what RETURN AFTER"
               else "UPSERT $what CONTENT $data RETURN AFTER"
    let var := some (varsInsert (varsInsert st.vars "what" what.could_be_table) "data" data)
    extract_first one (cx.ds.execute sql st.session var)

/-- `update` (rpc_context.rs:388-415). -/
def update (cx : RpcHost) (st : RpcState) (params : List Value) : Outcome Value :=
  match needs_one_or_two params with
  | .error _ => .err .invalidParams
  | .ok (what, data) =>
    let one := what.is_thing
    let sql := if data.is_none_or_null then "UPDATE $what RETURN AFTER"
               else "UPDATE $what CONTENT $data RETURN AFTER"
    let var := some (varsInsert (varsInsert st.vars "what" what.could_be_table) "data" data)
    extract_first one (cx.ds.execute sql st.session var)

/-- `merge` (rpc_context.rs:421-448). -/
def merge (cx : RpcHost) (st : RpcState) (params : List Value) : Outcome Value :=
  match needs_one_or_two params with
  | .error _ => .err .invalidParams
  | .ok (what, data) =>
    let one := what.is_thing
    let sql := if data.is_none_or_null then "UPDATE $what RETURN AFTER"
               else "UPDATE $what MERGE $data RETURN AFTER"
    let var := some (varsInsert (varsInsert st.vars "what" what.could_be_table) "data" data)
    extract_first one (cx.ds.execute sql st.session var)

/-- `patch` (rpc_context.rs:454-480). -/
def patch (cx : RpcHost) (st : RpcState) (params : List Value) : Outcome Value :=
  match needs_one_two_or_three params with
  | .error _ => .err .invalidParams
  | .ok (what, data, diff) =>
    let one := what.is_thing
    let sql := if diff.is_true then "UPDATE $what PATCH $data RETURN DIFF"
               else "UPDATE $what PATCH $data RETURN AFTER"
    let var := some (varsInsert (varsInsert st.vars "what" what.could_be_table) "data" data)
    extract_first one (cx.ds.execute sql st.session var)

/-- `relate` (rpc_context.rs:486-515). -/
def relate (cx : RpcHost) (st : RpcState) (params : List Value) : Outcome Value :=
  match needs_three_or_four params with
  | .error _ => .err .invalidParams
  | .ok (fromV, kind, toV, data) =>
    let one := kind.is_thing
    let sql := if data.is_none_or_null then "RELATE $from->$kind->$to"
               else "RELATE $from->$kind->$to CONTENT $data"
    let var := some
      (varsInsert (varsInsert (varsInsert (varsInsert st.vars
        "from" fromV) "kind" kind.could_be_table) "to" toV) "data" data)
    extract_first one (cx.ds.execute sql st.session var)

/-- `delete` (rpc_context.rs:521-543). -/
def delete (cx : RpcHost) (st : RpcState) (params : List Value) : Outcome Value :=
  match needs_one params with
  | .error _ => .err .invalidParams
  | .ok what =>
    let one := what.is_thing
    let var := some (varsInsert st.vars "what" what.could_be_table)
    extract_first one (cx.ds.execute "DELETE $what RETURN BEFORE" st.session var)

/-- `version` (rpc_context.rs:549-554). -/
def version (cx : RpcHost) (params : List Value) : Outcome Value :=
  match params.length with
  | 0 => .ok cx.versionData
  | _ => .err .invalidParams

/-- Modelled from the spec (§4.2 `query`: "merges caller vars over session
vars (caller wins on conflict)"): the `mrg!` macro (outside the given
sources). -/
def mergeVars (caller : List (String × Value)) (sess : Vars) : Vars :=
  caller.foldl (fun acc (kv : String × Value) => varsInsert acc kv.1 kv.2) sess

/-- `query` (rpc_context.rs:560-580): accepts a pre-parsed `Query` value or
a string; optional vars must be an object, merged over the session vars. -/
def query (cx : RpcHost) (st : RpcState) (params : List Value) :
    Outcome (List Response) :=
  match needs_one_or_two params with
  | .error _ => .err .invalidParams
  | .ok (q, o) =>
    if !(q.is_query || q.is_strand) then .err .invalidParams
    else
      match o with
      | .object v =>
        (query_inner cx.lqSupport cx.ds st.session q (some (mergeVars v st.vars))).1
      | .none => (query_inner cx.lqSupport cx.ds st.session q (some st.vars)).1
      | .null => (query_inner cx.lqSupport cx.ds st.session q (some st.vars)).1
      | _ => .err .invalidParams

/-! ### UTF-8 byte model for `run`'s name-prefix dispatch -/

/-- Standard UTF-8 encoding of one character (as the list of its bytes). -/
def charUtf8 (c : Char) : List Nat :=
  let n := c.toNat
  if n < 0x80 then [n]
  else if n < 0x800 then [0xC0 + n / 64, 0x80 + n % 64]
  else if n < 0x10000 then
    [0xE0 + n / 4096, 0x80 + (n / 64) % 64, 0x80 + n % 64]
  else
    [0xF0 + n / 262144, 0x80 + (n / 4096) % 64, 0x80 + (n / 64) % 64, 0x80 + n % 64]

/-- The UTF-8 byte sequence of a string, as Rust's `str` stores it. -/
def utf8Bytes (s : String) : List Nat :=
  s.data.flatMap charUtf8

/-- A UTF-8 continuation byte (`0b10xxxxxx`). -/
def isContinuation (b : Nat) : Bool :=
  128 ≤ b && b < 192

/-- Rust's `str::is_char_boundary`: the end of the string, or a byte that
does not continue a multi-byte character. -/
def is_char_boundary (bytes : List Nat) (i : Nat) : Bool :=
  if i = bytes.length then true
  else
    match bytes.get? i with
    | some b => !(isContinuation b)
    | Option.none => false

/-- `run` (rpc_context.rs:586-620): dispatch by name prefix.  The source
slices the name as `&func_name[0..4]`, which panics when the name is
shorter than four bytes or its fourth byte is not a character boundary;
`fn::` builds a custom function, `ml::` an ML model (version required),
anything else a built-in call; the query runs through `process`. -/
def run (cx : RpcHost) (st : RpcState) (params : List Value) : Outcome Value :=
  match needs_one_two_or_three params with
  | .ok (Value.strand func_name, version0, args0) =>
    let versionR : Except RpcError (Option String) :=
      match version0 with
      | .strand v => .ok (some v)
      | .none => .ok Option.none
      | .null => .ok Option.none
      | _ => .error .invalidParams
    (match versionR with
     | .error e => .err e
     | .ok versionArg =>
       let argsR : Except RpcError (List Value) :=
         match args0 with
         | .array arr => .ok arr
         | .none => .ok []
         | .null => .ok []
         | _ => .error .invalidParams
       match argsR with
       | .error e => .err e
       | .ok args =>
         let bytes := utf8Bytes func_name
         if 4 > bytes.length || !is_char_boundary bytes 4 then .panic
         else
           let funcR : Except RpcError Value :=
             if bytes.take 4 = utf8Bytes "fn::" then
               .ok (.function (.custom (func_name.data.drop 4).asString args))
             else if bytes.take 4 = utf8Bytes "ml::" then
               match versionArg with
               | some v => .ok (.model (.mk (func_name.data.drop 4).asString v args))
               | Option.none => .error .invalidParams
             else .ok (.function (.normal func_name args))
           match funcR with
           | .error e => .err e
           | .ok func =>
             match cx.ds.process (QueryAst.valueStmt func) st.session (some st.vars) with
             | .error e => .err (rpcErrorFromError e)
             | .ok [] => .panic
             | .ok (r :: _) =>
               match r.result with
               | .error e => .err (rpcErrorFromError e)
               | .ok v => .ok v)
  | .ok _ => .err .invalidParams
  | .error _ => .err .invalidParams

/-- `graphql` (rpc_context.rs:626-629, the build without the GraphQL
feature): replies `MethodNotFound`. -/
def graphql (_params : List Value) : Outcome Value :=
  .err .methodNotFound

/-- Modelled from the spec (§4.2 method set): the closed `Method` enum
(`rpc::method`, outside the given sources), with `unknown` for
unrecognised wire names. -/
inductive Method where
  | ping
  | info
  | use_
  | signup
  | signin
  | invalidate
  | authenticate
  | kill
  | live
  | set
  | unset
  | select
  | insert
  | create
  | upsert
  | update
  | merge
  | patch
  | delete
  | version
  | query
  | relate
  | run
  | graphql
  | unknown
deriving DecidableEq, Repr

/-- The wire response payload `Data` (rpc::response, outside the given
sources, modelled from the spec §6): a `Value` or a vector of `Response`s. -/
inductive Data where
  | value (v : Value)
  | results (rs : List Response)

/-- `execute` (rpc_context.rs:43-73): the mutating dispatch surface — every
method is routed to its handler; `Unknown` is `MethodNotFound`. -/
def execute (cx : RpcHost) (st : RpcState) (m : Method) (params : List Value) :
    RpcState × Outcome Data :=
  match m with
  | .ping => (st, .ok (.value .none))
  | .info => (st, (info cx st).map .value)
  | .use_ => let r := yuse st params; (r.1, r.2.map .value)
  | .signup => let r := signup cx st params; (r.1, r.2.map .value)
  | .signin => let r := signin cx st params; (r.1, r.2.map .value)
  | .invalidate => let r := invalidate cx st; (r.1, r.2.map .value)
  | .authenticate => let r := authenticate cx st params; (r.1, r.2.map .value)
  | .kill => (st, (kill cx st params).map .value)
  | .live => (st, (live cx st params).map .value)
  | .set => let r := set cx st params; (r.1, r.2.map .value)
  | .unset => let r := unset st params; (r.1, r.2.map .value)
  | .select => (st, (select cx st params).map .value)
  | .insert => (st, (insert cx st params).map .value)
  | .create => (st, (create cx st params).map .value)
  | .upsert => (st, (upsert cx st params).map .value)
  | .update => (st, (update cx st params).map .value)
  | .merge => (st, (merge cx st params).map .value)
  | .patch => (st, (patch cx st params).map .value)
  | .delete => (st, (delete cx st params).map .value)
  | .version => (st, (version cx params).map .value)
  | .query => (st, (query cx st params).map .results)
  | .relate => (st, (relate cx st params).map .value)
  | .run => (st, (run cx st params).map .value)
  | .graphql => (st, (graphql params).map .value)
  | .unknown => (st, .err .methodNotFound)

/-- `execute_immut` (rpc_context.rs:75-95): the read-only dispatch surface —
only the non-session-mutating methods are routed; `Unknown` and, through
the trailing `_` arm, every session-mutating method answer
`MethodNotFound`. -/
def execute_immut (cx : RpcHost) (st : RpcState) (m : Method)
    (params : List Value) : Outcome Data :=
  match m with
  | .ping => .ok (.value .none)
  | .info => (info cx st).map .value
  | .select => (select cx st params).map .value
  | .insert => (insert cx st params).map .value
  | .create => (create cx st params).map .value
  | .upsert => (upsert cx st params).map .value
  | .update => (update cx st params).map .value
  | .merge => (merge cx st params).map .value
  | .patch => (patch cx st params).map .value
  | .delete => (delete cx st params).map .value
  | .version => (version cx params).map .value
  | .query => (query cx st params).map .results
  | .relate => (relate cx st params).map .value
  | .run => (run cx st params).map .value
  | .graphql => (graphql params).map .value
  | .unknown => .err .methodNotFound
  | _ => .err .methodNotFound

/-! ## The parser core (`src/core/src/syn/parser/prime.rs`)

The parser is embedded at the token level: the lexer (`syn::token` and the
lexing machinery, outside the given sources) is modelled as a list of typed
tokens with spans.  Productions whose bodies are outside the given sources
(the statement parsers, `parse_closure`, `parse_value_field`) are abstract
collaborators bundled in `SubFns`, instantiated with a concrete model where
a theorem needs to evaluate. -/

/-- A source span.  Spans here are the offset of the token in the input;
only identity matters to the claims (which error points where). -/
abbrev Span := Nat

/-- Modelled from the spec: the token kinds (`syn::token::TokenKind`,
outside the given sources) inspected by the embedded productions — idents,
numbers, the punctuation of mocks/closures/subqueries, the ten
statement-keyword openers, and the sixteen keywords of
`starts_disallowed_subquery_statement`. -/
inductive TokenKind where
  | ident (s : String)
  | digits (n : Nat)
  | colon
  | dotdot
  | pipe
  | openParen
  | closeParen
  | dollarParam (name : String)
  | kwReturn
  | kwSelect
  | kwCreate
  | kwUpsert
  | kwUpdate
  | kwDelete
  | kwRelate
  | kwDefine
  | kwRemove
  | kwRebuild
  | kwAnalyze
  | kwBegin
  | kwBreak
  | kwCancel
  | kwCommit
  | kwContinue
  | kwFor
  | kwInfo
  | kwKill
  | kwLive
  | kwOption
  | kwLet
  | kwShow
  | kwSleep
  | kwThrow
  | kwUse
  | eof
deriving DecidableEq, Repr

/-- A lexed token: a kind plus its source span. -/
structure Token where
  kind : TokenKind
  span : Span
deriving DecidableEq, Repr

/-- The parser state over the modelled token stream: the tokens, the
cursor, and the span of the most recently consumed token (`recent_span`). -/
structure PState where
  tokens : List Token
  pos : Nat := 0
  last : Span := 0

/-- `Parser::peek`: the token at the cursor; past the end, an `eof` token. -/
def PState.peek (st : PState) : Token :=
  st.tokens.getD st.pos ⟨.eof, st.pos⟩

/-- `Parser::pop_peek`: consume the token at the cursor. -/
def PState.advance (st : PState) : PState :=
  { st with pos := st.pos + 1, last := st.peek.span }

/-- `Parser::eat`: consume the next token iff it has the given kind. -/
def eatTok (k : TokenKind) (st : PState) : Bool × PState :=
  if st.peek.kind == k then (true, st.advance) else (false, st)

/-- The parse-error kinds the embedded productions produce
(`syn::parser::ParseErrorKind`; only `DisallowedStatement` is built by the
given sources, the others model the generic errors of the collaborating
macros). -/
inductive ParseErrorKind where
  | disallowedStatement (found : TokenKind) (expected : TokenKind) (disallowed : Span)
  | unclosedDelimiter (expected : TokenKind) (should_close : Span)
  | unexpected (found : TokenKind) (expected : String)
deriving DecidableEq, Repr

/-- `syn::parser::ParseError`: an error kind plus the span it points at. -/
structure ParseError where
  kind : ParseErrorKind
  span : Span
deriving DecidableEq, Repr

/-- Modelled from the spec (§4.1: production parsers receive their opening
delimiter's span "for error reporting and matched-close validation"):
`Parser::expect_closing_delimiter` (outside the given sources). -/
def expect_closing_delimiter (k : TokenKind) (should_close : Span) (st : PState) :
    Except ParseError PState :=
  if st.peek.kind == k then .ok st.advance
  else .error ⟨.unclosedDelimiter k should_close, st.peek.span⟩

/-- The identifier text of a token, when it can stand in identifier
position: a plain ident, or any keyword (the real parser glues keywords
into idents in value position). -/
def tokenIdentName : TokenKind → Option String
  | .ident s => some s
  | .kwReturn => some "RETURN"
  | .kwSelect => some "SELECT"
  | .kwCreate => some "CREATE"
  | .kwUpsert => some "UPSERT"
  | .kwUpdate => some "UPDATE"
  | .kwDelete => some "DELETE"
  | .kwRelate => some "RELATE"
  | .kwDefine => some "DEFINE"
  | .kwRemove => some "REMOVE"
  | .kwRebuild => some "REBUILD"
  | .kwAnalyze => some "ANALYZE"
  | .kwBegin => some "BEGIN"
  | .kwBreak => some "BREAK"
  | .kwCancel => some "CANCEL"
  | .kwCommit => some "COMMIT"
  | .kwContinue => some "CONTINUE"
  | .kwFor => some "FOR"
  | .kwInfo => some "INFO"
  | .kwKill => some "KILL"
  | .kwLive => some "LIVE"
  | .kwOption => some "OPTION"
  | .kwLet => some "LET"
  | .kwShow => some "SHOW"
  | .kwSleep => some "SLEEP"
  | .kwThrow => some "THROW"
  | .kwUse => some "USE"
  | _ => Option.none

/-- Modelled from the spec: `next_token_value::<Ident>` (outside the given
sources) — consume an identifier-position token. -/
def next_token_value_ident (st : PState) : Except ParseError (String × PState) :=
  match tokenIdentName st.peek.kind with
  | some s => .ok (s, st.advance)
  | Option.none => .error ⟨.unexpected st.peek.kind "an identifier", st.peek.span⟩

/-- Modelled from the spec: `next_token_value::<u64>` — consume a numeric
token. -/
def next_token_value_u64 (st : PState) : Except ParseError (Nat × PState) :=
  match st.peek.kind with
  | .digits n => .ok (n, st.advance)
  | k => .error ⟨.unexpected k "a number", st.peek.span⟩

/-- The `expected!` macro: consume a token of exactly the given kind. -/
def expectedTok (k : TokenKind) (st : PState) : Except ParseError (Token × PState) :=
  if st.peek.kind == k then .ok (st.peek, st.advance)
  else .error ⟨.unexpected st.peek.kind "a specific token", st.peek.span⟩

/-- The production parsers that live outside prime.rs (statement bodies,
closures) and `parse_value_field` (mod.rs of the parser): abstract
collaborators of the embedded productions. -/
structure SubFns where
  parse_value_field : PState → Except ParseError (Value × PState)
  parse_return_stmt : PState → Except ParseError (Stmt × PState)
  parse_select_stmt : PState → Except ParseError (Stmt × PState)
  parse_create_stmt : PState → Except ParseError (Stmt × PState)
  parse_upsert_stmt : PState → Except ParseError (Stmt × PState)
  parse_update_stmt : PState → Except ParseError (Stmt × PState)
  parse_delete_stmt : PState → Except ParseError (Stmt × PState)
  parse_relate_stmt : PState → Except ParseError (Stmt × PState)
  parse_define_stmt : PState → Except ParseError (Stmt × PState)
  parse_remove_stmt : PState → Except ParseError (Stmt × PState)
  parse_rebuild_stmt : PState → Except ParseError (Stmt × PState)
  parse_closure : PState → Span → Except ParseError (Value × PState)

/-- `Parser::starts_disallowed_subquery_statement` (prime.rs:699-712): the
closed set of sixteen statement keywords not valid in expression
position. -/
def starts_disallowed_subquery_statement (kind : TokenKind) : Bool :=
  match kind with
  | .kwAnalyze => true
  | .kwBegin => true
  | .kwBreak => true
  | .kwCancel => true
  | .kwCommit => true
  | .kwContinue => true
  | .kwFor => true
  | .kwInfo => true
  | .kwKill => true
  | .kwLive => true
  | .kwOption => true
  | .kwLet => true
  | .kwShow => true
  | .kwSleep => true
  | .kwThrow => true
  | .kwUse => true
  | _ => false

/-- The guard of the dedicated diagnostic in `parse_inner_subquery_inner`:
the parsed subquery is a value consisting of a single-part idiom. -/
def isSingleIdiomValue : Subquery → Bool
  | .value (.idiom [_]) => true
  | _ => false

/-- `Parser::parse_inner_subquery_inner` (prime.rs:613-697): dispatch on
the first token — the ten statement keywords open their statement parsers,
anything else parses a value.  When a closing delimiter is expected
(`start` is `some`), a first token in the disallowed-keyword set that got
parsed as a single-part idiom value and is followed by a token other than
`)` produces the dedicated `DisallowedStatement` diagnostic whose
`disallowed` span is the first token's span; otherwise the closing `)` is
required. -/
def parse_inner_subquery_inner (sp : SubFns) (st : PState) (start : Option Span) :
    Except ParseError (Subquery × PState) :=
  let peek := st.peek
  let resE : Except ParseError (Subquery × PState) :=
    match peek.kind with
    | .kwReturn => (sp.parse_return_stmt st.advance).map (fun r => (.output r.1, r.2))
    | .kwSelect => (sp.parse_select_stmt st.advance).map (fun r => (.selectS r.1, r.2))
    | .kwCreate => (sp.parse_create_stmt st.advance).map (fun r => (.createS r.1, r.2))
    | .kwUpsert => (sp.parse_upsert_stmt st.advance).map (fun r => (.upsertS r.1, r.2))
    | .kwUpdate => (sp.parse_update_stmt st.advance).map (fun r => (.updateS r.1, r.2))
    | .kwDelete => (sp.parse_delete_stmt st.advance).map (fun r => (.deleteS r.1, r.2))
    | .kwRelate => (sp.parse_relate_stmt st.advance).map (fun r => (.relateS r.1, r.2))
    | .kwDefine => (sp.parse_define_stmt st.advance).map (fun r => (.defineS r.1, r.2))
    | .kwRemove => (sp.parse_remove_stmt st.advance).map (fun r => (.removeS r.1, r.2))
    | .kwRebuild => (sp.parse_rebuild_stmt st.advance).map (fun r => (.rebuildS r.1, r.2))
    | _ => (sp.parse_value_field st).map (fun r => (.value r.1, r.2))
  match resE with
  | .error e => .error e
  | .ok (res, st1) =>
    match start with
    | some startSpan =>
      if (!(st1.peek.kind == .closeParen)
            && starts_disallowed_subquery_statement peek.kind)
          && isSingleIdiomValue res then
        .error ⟨.disallowedStatement st1.peek.kind .closeParen peek.span, st1.last⟩
      else
        (expect_closing_delimiter .closeParen startSpan st1).map (fun st2 => (res, st2))
    | Option.none => .ok (res, st1)

/-- `Parser::parse_mock` (prime.rs:376-387): `|name:n|` is `Mock::Count`,
`|name:a..b|` is `Mock::Range`; the opening `|` is already consumed and its
span is `start`. -/
def parse_mock (st0 : PState) (start : Span) : Except ParseError (Mock × PState) := do
  let (name, st1) ← next_token_value_ident st0
  let (_, st2) ← expectedTok .colon st1
  let (fromN, st3) ← next_token_value_u64 st2
  let (toN, st4) ←
    match eatTok .dotdot st3 with
    | (true, st) => (next_token_value_u64 st).map (fun r => (some r.1, r.2))
    | (false, st) => .ok (Option.none, st)
  let st5 ← expect_closing_delimiter .pipe start st4
  match toN with
  | some t => pure (Mock.range name fromN t, st5)
  | Option.none => pure (Mock.count name fromN, st5)

/-- `Parser::parse_closure_or_mock` (prime.rs:389-398): after the `|`
opener, a `$param` token starts a closure, any other token starts a mock. -/
def parse_closure_or_mock (sp : SubFns) (st : PState) (start : Span) :
    Except ParseError (Value × PState) :=
  match st.peek.kind with
  | .dollarParam _ => sp.parse_closure st start
  | _ => (parse_mock st start).map (fun r => (Value.mock r.1, r.2))

/-- Modelled from the spec (§4.1 disambiguation 5) and the `_` arm of
`parse_idiom_expression` (prime.rs:307-329): in value-field position a bare
identifier — or a keyword usable as one — whose following token is not
`::`, `(` or `:` parses as the single-part idiom `Field(name)`; a bare
number parses as a number.  This concrete model instantiates the abstract
`parse_value_field` where a theorem evaluates on a specific token stream. -/
def parse_value_field_model (st : PState) : Except ParseError (Value × PState) :=
  match tokenIdentName st.peek.kind with
  | some name => .ok (Value.idiom [Part.field name], st.advance)
  | Option.none =>
    match st.peek.kind with
    | .digits n => .ok (Value.int n, st.advance)
    | k => .error ⟨.unexpected k "a value", st.peek.span⟩

/-- The concrete `SubFns` bundle used to evaluate theorems: the modelled
value-field parser, with the statement parsers and `parse_closure` left as
always-failing stubs (no evaluated input reaches them). -/
def subFnsModel : SubFns where
  parse_value_field := parse_value_field_model
  parse_return_stmt := fun st => .error ⟨.unexpected st.peek.kind "unmodelled", st.peek.span⟩
  parse_select_stmt := fun st => .error ⟨.unexpected st.peek.kind "unmodelled", st.peek.span⟩
  parse_create_stmt := fun st => .error ⟨.unexpected st.peek.kind "unmodelled", st.peek.span⟩
  parse_upsert_stmt := fun st => .error ⟨.unexpected st.peek.kind "unmodelled", st.peek.span⟩
  parse_update_stmt := fun st => .error ⟨.unexpected st.peek.kind "unmodelled", st.peek.span⟩
  parse_delete_stmt := fun st => .error ⟨.unexpected st.peek.kind "unmodelled", st.peek.span⟩
  parse_relate_stmt := fun st => .error ⟨.unexpected st.peek.kind "unmodelled", st.peek.span⟩
  parse_define_stmt := fun st => .error ⟨.unexpected st.peek.kind "unmodelled", st.peek.span⟩
  parse_remove_stmt := fun st => .error ⟨.unexpected st.peek.kind "unmodelled", st.peek.span⟩
  parse_rebuild_stmt := fun st => .error ⟨.unexpected st.peek.kind "unmodelled", st.peek.span⟩
  parse_closure := fun st _ => .error ⟨.unexpected st.peek.kind "unmodelled", st.peek.span⟩

/-- Modelled from the spec: the lexer (outside the given sources),
restricted to the character classes the claimed inputs use — `|`, `:`,
`..`, `(`, `)`, digit runs, identifier runs and `$params`.  Spans are
character offsets.  The fuel argument is the remaining input length. -/
def tokenizeFuel : Nat → List Char → Nat → List Token
  | 0, _, _ => []
  | _, [], _ => []
  | fuel + 1, c :: rest, off =>
    if c = '|' then ⟨.pipe, off⟩ :: tokenizeFuel fuel rest (off + 1)
    else if c = ':' then ⟨.colon, off⟩ :: tokenizeFuel fuel rest (off + 1)
    else if c = '(' then ⟨.openParen, off⟩ :: tokenizeFuel fuel rest (off + 1)
    else if c = ')' then ⟨.closeParen, off⟩ :: tokenizeFuel fuel rest (off + 1)
    else if c = '.' then
      match rest with
      | '.' :: rest2 => ⟨.dotdot, off⟩ :: tokenizeFuel fuel rest2 (off + 2)
      | _ => []
    else if c.isDigit then
      let digs := (c :: rest).takeWhile Char.isDigit
      let rest2 := (c :: rest).dropWhile Char.isDigit
      let n := digs.foldl (fun acc d => acc * 10 + (d.toNat - 48)) 0
      ⟨.digits n, off⟩ :: tokenizeFuel fuel rest2 (off + digs.length)
    else if c.isAlpha then
      let ids := (c :: rest).takeWhile Char.isAlpha
      let rest2 := (c :: rest).dropWhile Char.isAlpha
      ⟨.ident ids.asString, off⟩ :: tokenizeFuel fuel rest2 (off + ids.length)
    else []

/-- Tokenise a string with the modelled lexer. -/
def tokenize (s : String) : List Token :=
  tokenizeFuel s.length s.data 0

/-! ## Concrete fixtures for evaluating the theorems -/

/-- A concrete storage engine for evaluation: `compute` returns its input
value, `execute`/`process` return one successful response. -/
def dsModel : Datastore where
  execute := fun _ _ _ => .ok [{ result := .ok (.strand "r"), time := 0, query_type := .other }]
  process := fun _ _ _ => .ok [{ result := .ok (.strand "r"), time := 0, query_type := .other }]
  compute := fun v _ _ => .ok v

/-- A concrete host for evaluation: the engine above, IAM collaborators
that fail with `InvalidAuth` while leaving the session unchanged, and no
live-query support. -/
def hostModel : RpcHost where
  ds := dsModel
  iamSignup := fun _ s _ => (s, .error .invalidAuth)
  iamSignin := fun _ s _ => (s, .error .invalidAuth)
  iamToken := fun _ s _ => (s, .ok ())
  iamClear := fun s => (s, .ok ())
  lqSupport := false
  versionData := .strand "surrealdb"

/-- The empty dispatcher state: default session, no variables. -/
def stEmpty : RpcState where
  session := sessionDefault
  vars := []

/-- An IAM `signup` collaborator that mutates the session before failing —
the behaviour the IAM interface (§6) does not rule out. -/
def iamMutatingFailure : Datastore → Session → List (String × Value) →
    Session × Except Error Value :=
  fun _ s _ => ({ s with ns := some "hijacked" }, .error .invalidAuth)

/-- `hostModel` with the mutating-then-failing `signup` collaborator. -/
def hostBadIam : RpcHost :=
  { hostModel with iamSignup := iamMutatingFailure }

/-- A concrete starting session with a namespace selected. -/
def sessionStart : Session :=
  { ns := some "orig", db := Option.none, au := "", rt := false }

/-! ## The claims -/

/-- C1, counterexample: the `set` handler performs no protected-name
check.  At `set("auth", true)` — `auth` being a protected name of the
spec's closed set — the embedded handler answers `Ok(Null)` (which differs
from every `InvalidParams` rejection) and the variable store changes from
empty to holding `auth`. -/
theorem c1_set_counterexample :
    set hostModel stEmpty [Value.strand "auth", Value.bool true]
      = ({ session := sessionDefault, vars := [("auth", Value.bool true)] }, .ok .null)
    ∧ (Outcome.ok Value.null ≠ (Outcome.err .invalidParams : Outcome Value))
    ∧ ([("auth", Value.bool true)] : Vars) ≠ ([] : Vars) :=
  ⟨rfl, fun h => Outcome.noConfusion h, fun h => List.noConfusion h⟩

/-- C1, amended: for every `Strand` key — protected names included — the
`set` handler never rejects with `InvalidParams`; it computes the value
under the session and the variables extended with `key => None`, then
stores the result under the key (removing the variable when the computed
value is `None`) and answers `Null`, or surfaces the engine's error. -/
theorem c1_set_no_protected_check :
    ∀ (cx : RpcHost) (st : RpcState) (k : String) (v : Value),
    (set cx st [.strand k, v]).2 ≠ .err .invalidParams
    ∧ (∀ e, cx.ds.compute v st.session (some (varsInsert st.vars k .none)) = .error e →
        set cx st [.strand k, v] = (st, .err (rpcErrorFromError e)))
    ∧ (cx.ds.compute v st.session (some (varsInsert st.vars k .none)) = .ok .none →
        set cx st [.strand k, v] = ({ st with vars := varsRemove st.vars k }, .ok .null))
    ∧ (∀ w, cx.ds.compute v st.session (some (varsInsert st.vars k .none)) = .ok w →
        w ≠ .none →
        set cx st [.strand k, v] = ({ st with vars := varsInsert st.vars k w }, .ok .null)) := by
  intro cx st k v
  refine ⟨?_, ?_, ?_, ?_⟩
  · rcases h : cx.ds.compute v st.session (some (varsInsert st.vars k .none)) with e | w
    · simp only [set, needs_one_or_two, h]
      exact fun hc => RpcError.noConfusion (Outcome.err.inj hc)
    · cases w <;> simp only [set, needs_one_or_two, h] <;> exact fun hc => Outcome.noConfusion hc
  · intro e h
    simp only [set, needs_one_or_two, h]
  · intro h
    simp only [set, needs_one_or_two, h]
  · intro w h hw
    cases w <;> simp only [set, needs_one_or_two, h]
    exact absurd rfl hw

/-- C1, witness for the amended theorem: at `set("auth", true)` over the
identity-compute engine the variable is stored and the reply is `Null`. -/
theorem c1_set_no_protected_check_witness :
    set hostModel stEmpty [Value.strand "auth", Value.bool true]
      = ({ stEmpty with vars := varsInsert stEmpty.vars "auth" (Value.bool true) }, .ok .null) :=
  (c1_set_no_protected_check hostModel stEmpty "auth" (Value.bool true)).2.2.2
    (Value.bool true) rfl (fun h => Value.noConfusion h)

/-- C2: the claim says `run` is total for every params array whose first
element is a `Strand`, but the prefix dispatch slices `&func_name[0..4]`,
a byte slice that panics when the name is shorter than four bytes
(`run(["abc"])`) or when its fourth byte is not a character boundary
(`run(["日本"])` — two three-byte characters).  The embedded handler hits
the modelled panic at both failing inputs. -/
theorem c2_run_panics_at_failing_input :
    run hostModel stEmpty [Value.strand "abc"] = .panic
    ∧ run hostModel stEmpty [Value.strand "日本"] = .panic :=
  ⟨rfl, rfl⟩

/-- C4, counterexample: a rocksdb duplicate-key error does not convert to
`TxKeyAlreadyExists` — the rocksdb conversion (err/mod.rs:1138-1143) maps
every error, whatever its message, to the generic `Tx(msg)`. -/
theorem c4_rocksdb_counterexample :
    errorFromRocksDb { msg := "duplicate key" } = .tx "duplicate key"
    ∧ (Error.tx "duplicate key" ≠ Error.txKeyAlreadyExists)
    ∧ errorFromSurrealKv { msg := "key already exists" } = .tx "key already exists"
    ∧ (Error.tx "key already exists" ≠ Error.txKeyAlreadyExists) :=
  ⟨rfl, fun h => Error.noConfusion h, rfl, fun h => Error.noConfusion h⟩

/-- C4, amended: the duplicate-key mapping to `TxKeyAlreadyExists` holds
for the echodb, indxdb and tikv backends (with echodb/indxdb also mapping
`ValNotExpectedValue` to `TxConditionNotMet` and everything else to
`Tx(msg)`); the rocksdb and surrealkv conversions map every error to the
generic `Tx(msg)` and the foundationdb conversions to `Ds(msg)`/`Tx(msg)`,
with no duplicate-key classification. -/
theorem c4_backend_conversions :
    errorFromEchoDb .keyAlreadyExists = .txKeyAlreadyExists
    ∧ errorFromEchoDb .valNotExpectedValue = .txConditionNotMet
    ∧ (∀ m, errorFromEchoDb (.other m) = .tx m)
    ∧ errorFromIndxDb .keyAlreadyExists = .txKeyAlreadyExists
    ∧ errorFromIndxDb .valNotExpectedValue = .txConditionNotMet
    ∧ (∀ m, errorFromIndxDb (.other m) = .tx m)
    ∧ errorFromTikv .duplicateKeyInsertion = .txKeyAlreadyExists
    ∧ (∀ e, errorFromRocksDb e = .tx e.msg)
    ∧ (∀ e, errorFromSurrealKv e = .tx e.msg)
    ∧ (∀ e, errorFromFdb e = .ds e.msg)
    ∧ (∀ e, errorFromFdbCommit e = .tx e.msg) :=
  ⟨rfl, rfl, fun _ => rfl, rfl, rfl, fun _ => rfl, rfl,
    fun _ => rfl, fun _ => rfl, fun _ => rfl, fun _ => rfl⟩

/-- C5, counterexample: with an IAM collaborator that mutates the session
before failing, `signup` returns the error but the session held by the
dispatcher afterwards is the mutated one, not the original from before the
call — the move-in restores whatever the collaborator left, unconditionally. -/
theorem c5_signup_counterexample :
    signup hostBadIam { session := sessionStart, vars := [] } [Value.object []]
      = ({ session := { sessionStart with ns := some "hijacked" }, vars := [] },
          .err (rpcErrorFromError .invalidAuth))
    ∧ ({ sessionStart with ns := some "hijacked" } : Session) ≠ sessionStart := by
  refine ⟨rfl, ?_⟩
  decide

/-- C5, amended: after `signup`/`signin` on a single-`Object` params array
the dispatcher's session is exactly the session returned by the IAM
collaborator (the move-out/move-in moves it back unconditionally, also on
failure); in particular, when the collaborator fails *without touching the
session*, the original session is restored and the error is returned. -/
theorem c5_session_move_roundtrip :
    ∀ (cx : RpcHost) (st : RpcState) (obj : List (String × Value)),
    (signup cx st [.object obj]).1.session = (cx.iamSignup cx.ds st.session obj).1
    ∧ (signin cx st [.object obj]).1.session = (cx.iamSignin cx.ds st.session obj).1
    ∧ (∀ e, cx.iamSignup cx.ds st.session obj = (st.session, .error e) →
        signup cx st [.object obj] = (st, .err (rpcErrorFromError e)))
    ∧ (∀ e, cx.iamSignin cx.ds st.session obj = (st.session, .error e) →
        signin cx st [.object obj] = (st, .err (rpcErrorFromError e))) := by
  intro cx st obj
  refine ⟨?_, ?_, ?_, ?_⟩
  · rcases h : cx.iamSignup cx.ds st.session obj with ⟨s1, out⟩
    cases out <;> simp [signup, needs_one, h]
  · rcases h : cx.iamSignin cx.ds st.session obj with ⟨s1, out⟩
    cases out <;> simp [signin, needs_one, h]
  · intro e h
    simp [signup, needs_one, h]
  · intro e h
    simp [signin, needs_one, h]

/-- C5, witness for the amended theorem: with the session-preserving
failing IAM of `hostModel`, `signup` returns the error and the state is
unchanged. -/
theorem c5_session_move_roundtrip_witness :
    signup hostModel { session := sessionStart, vars := [] } [Value.object []]
      = ({ session := sessionStart, vars := [] }, .err (rpcErrorFromError .invalidAuth)) :=
  (c5_session_move_roundtrip hostModel { session := sessionStart, vars := [] } []).2.2.1
    .invalidAuth rfl

/-- C6: `use(ns, db)` with two parameters — a `Strand` sets the
corresponding session field, `Null` clears it, `None` leaves it unchanged;
`Null` namespace with a non-`Null` database is `InvalidParams` with both
fields untouched; in particular `use(None, Strand(x))` leaves the
namespace unchanged and sets the database. -/
theorem c6_use_semantics :
    ∀ (st : RpcState) (a b : String),
    yuse st [.strand a, .strand b]
      = ({ st with session := { st.session with ns := some a, db := some b } }, .ok .none)
    ∧ yuse st [.strand a, .null]
      = ({ st with session := { st.session with ns := some a, db := Option.none } }, .ok .none)
    ∧ yuse st [.strand a, .none]
      = ({ st with session := { st.session with ns := some a } }, .ok .none)
    ∧ yuse st [.null, .strand b] = (st, .err .invalidParams)
    ∧ yuse st [.null, .none] = (st, .err .invalidParams)
    ∧ yuse st [.null, .null]
      = ({ st with session := { st.session with ns := Option.none, db := Option.none } }, .ok .none)
    ∧ yuse st [.none, .strand b]
      = ({ st with session := { st.session with db := some b } }, .ok .none)
    ∧ yuse st [.none, .null]
      = ({ st with session := { st.session with db := Option.none } }, .ok .none)
    ∧ yuse st [.none, .none] = (st, .ok .none) := by
  intro st a b
  exact ⟨rfl, rfl, rfl, rfl, rfl, rfl, rfl, rfl, rfl⟩

/-- C7: with `LQ_SUPPORT = false` and the session's realtime flag set,
`query_inner` answers `BadLQConfig` with no engine call (and no hook call)
made, for every engine, query value and variable map. -/
theorem c7_bad_lq_config :
    ∀ (ds : Datastore) (ns db : Option String) (au : String)
      (q : Value) (vars : Option Vars),
    query_inner false ds { ns := ns, db := db, au := au, rt := true } q vars
      = (.err .badLQConfig, [], []) := by
  intro ds ns db au q vars
  rfl

/-- The session-mutating method set of the claim: the methods the
read-only surface refuses. -/
def isSessionMutating : Method → Bool
  | .use_ => true
  | .signup => true
  | .signin => true
  | .invalidate => true
  | .authenticate => true
  | .kill => true
  | .live => true
  | .set => true
  | .unset => true
  | _ => false

/-- C8: for every session-mutating method and every params array the
read-only surface `execute_immut` answers `MethodNotFound`, while the
mutating surface `execute` routes every method except `Unknown` to its
handler (`Unknown` alone answers `MethodNotFound` there). -/
theorem c8_dispatch_surfaces :
    ∀ (cx : RpcHost) (st : RpcState) (params : List Value),
    (∀ m, isSessionMutating m = true →
        execute_immut cx st m params = .err .methodNotFound)
    ∧ execute cx st .ping params = (st, .ok (.value .none))
    ∧ execute cx st .info params = (st, (info cx st).map .value)
    ∧ execute cx st .use_ params
        = ((yuse st params).1, (yuse st params).2.map .value)
    ∧ execute cx st .signup params
        = ((signup cx st params).1, (signup cx st params).2.map .value)
    ∧ execute cx st .signin params
        = ((signin cx st params).1, (signin cx st params).2.map .value)
    ∧ execute cx st .invalidate params
        = ((invalidate cx st).1, (invalidate cx st).2.map .value)
    ∧ execute cx st .authenticate params
        = ((authenticate cx st params).1, (authenticate cx st params).2.map .value)
    ∧ execute cx st .kill params = (st, (kill cx st params).map .value)
    ∧ execute cx st .live params = (st, (live cx st params).map .value)
    ∧ execute cx st .set params
        = ((set cx st params).1, (set cx st params).2.map .value)
    ∧ execute cx st .unset params
        = ((unset st params).1, (unset st params).2.map .value)
    ∧ execute cx st .select params = (st, (select cx st params).map .value)
    ∧ execute cx st .insert params = (st, (insert cx st params).map .value)
    ∧ execute cx st .create params = (st, (create cx st params).map .value)
    ∧ execute cx st .upsert params = (st, (upsert cx st params).map .value)
    ∧ execute cx st .update params = (st, (update cx st params).map .value)
    ∧ execute cx st .merge params = (st, (merge cx st params).map .value)
    ∧ execute cx st .patch params = (st, (patch cx st params).map .value)
    ∧ execute cx st .delete params = (st, (delete cx st params).map .value)
    ∧ execute cx st .version params = (st, (version cx params).map .value)
    ∧ execute cx st .query params = (st, (query cx st params).map .results)
    ∧ execute cx st .relate params = (st, (relate cx st params).map .value)
    ∧ execute cx st .run params = (st, (run cx st params).map .value)
    ∧ execute cx st .graphql params = (st, (graphql params).map .value)
    ∧ execute cx st .unknown params = (st, .err .methodNotFound) := by
  intro cx st params
  refine ⟨?_, rfl, rfl, rfl, rfl, rfl, rfl, rfl, rfl, rfl, rfl, rfl, rfl,
    rfl, rfl, rfl, rfl, rfl, rfl, rfl, rfl, rfl, rfl, rfl, rfl, rfl⟩
  intro m hm
  cases m <;> first
    | rfl
    | exact absurd hm (by simp [isSessionMutating])

/-- C8, witness: on the read-only surface the mutating method `set`
answers `MethodNotFound` at a concrete host, state and params array. -/
theorem c8_dispatch_surfaces_witness :
    execute_immut hostModel stEmpty .set [] = .err .methodNotFound :=
  (c8_dispatch_surfaces hostModel stEmpty []).1 .set rfl

/-- C9: `set_check_from_coerce`/`function_check_from_coerce` rewrite a
`CoerceTo{from, into}` into `SetCheck`/`FunctionCheck` carrying the given
name, the display of `from` and the original `into` as the check; every
other variant passes through both transforms unchanged. -/
theorem c9_coerce_transforms :
    (∀ (f : Value) (i n : String),
      (Error.coerceTo f i).set_check_from_coerce n = .setCheck n f.display i
      ∧ (Error.coerceTo f i).function_check_from_coerce n = .functionCheck n f.display i)
    ∧ (∀ (e : Error) (n : String), (∀ f i, e ≠ .coerceTo f i) →
      e.set_check_from_coerce n = e ∧ e.function_check_from_coerce n = e) := by
  refine ⟨fun f i n => ⟨rfl, rfl⟩, fun e n h => ?_⟩
  cases e with
  | coerceTo f i => exact absurd rfl (h f i)
  | _ => exact ⟨rfl, rfl⟩

/-- C9, witness: the transforms evaluated at a concrete `CoerceTo` and at
a concrete non-`CoerceTo` variant. -/
theorem c9_coerce_transforms_witness :
    ((Error.coerceTo (.strand "s") "int").set_check_from_coerce "x"
        = .setCheck "x" (Value.strand "s").display "int")
    ∧ (Error.invalidAuth.set_check_from_coerce "x" = .invalidAuth) :=
  ⟨(c9_coerce_transforms.1 (.strand "s") "int" "x").1,
    (c9_coerce_transforms.2 .invalidAuth "x" (fun _ _ h => Error.noConfusion h)).1⟩

/-- The inner token stream of `(foo KILL)`: a plain identifier followed by
a disallowed statement keyword, then the closing parenthesis. -/
def c3badTokens : List Token :=
  [⟨.ident "foo", 1⟩, ⟨.kwKill, 2⟩, ⟨.closeParen, 3⟩]

/-- Whether a parse error is the dedicated `DisallowedStatement`
diagnostic. -/
def isDisallowedStatementError : ParseError → Bool
  | ⟨.disallowedStatement _ _ _, _⟩ => true
  | _ => false

/-- C3, counterexample: on `(foo KILL)` the parsed result is the
single-part idiom `foo` and the next token, `KILL`, is in the keyword set
and is not `)` — exactly the claim's hypothesis — yet the parser returns
the generic unclosed-delimiter error, not a `DisallowedStatement`
diagnostic: the source tests the *first* token of the subquery, not the
token following the idiom. -/
theorem c3_counterexample :
    parse_inner_subquery_inner subFnsModel ⟨c3badTokens, 0, 0⟩ (some 0)
      = .error ⟨.unclosedDelimiter .closeParen 0, 2⟩
    ∧ isDisallowedStatementError ⟨.unclosedDelimiter .closeParen 0, 2⟩ = false
    ∧ subFnsModel.parse_value_field ⟨c3badTokens, 0, 0⟩
        = .ok (.idiom [.field "foo"], ⟨c3badTokens, 1, 1⟩)
    ∧ starts_disallowed_subquery_statement (PState.peek ⟨c3badTokens, 1, 1⟩).kind = true
    ∧ (PState.peek ⟨c3badTokens, 1, 1⟩).kind ≠ .closeParen :=
  ⟨rfl, rfl, rfl, rfl, by decide⟩

/-- C3, amended: the keyword the parser tests is the *first* token of the
parenthesised inner subquery.  When that first token is in the closed
keyword set, the value parser turns it into a single-part idiom, and the
token after the idiom is not `)`, the parser returns the dedicated
`DisallowedStatement` diagnostic whose `disallowed` span is the first
token's (the keyword's) span and whose outer span is the span of the most
recently consumed token. -/
theorem c3_disallowed_first_token :
    ∀ (sp : SubFns) (st : PState) (startSpan : Span) (p : Part) (st1 : PState),
    starts_disallowed_subquery_statement st.peek.kind = true →
    sp.parse_value_field st = .ok (.idiom [p], st1) →
    st1.peek.kind ≠ .closeParen →
    parse_inner_subquery_inner sp st (some startSpan)
      = .error ⟨.disallowedStatement st1.peek.kind .closeParen st.peek.span, st1.last⟩ := by
  intro sp st startSpan p st1 hdis hpvf hne
  have hbeq : (st1.peek.kind == TokenKind.closeParen) = false := by
    simp only [beq_eq_false_iff_ne, ne_eq]
    exact hne
  cases hk : st.peek.kind <;>
    simp_all [parse_inner_subquery_inner, starts_disallowed_subquery_statement,
      isSingleIdiomValue, Except.map]

/-- The inner token stream of `(KILL foo)`: the disallowed keyword first,
then another token, then the closing parenthesis. -/
def c3keywordTokens : List Token :=
  [⟨.kwKill, 1⟩, ⟨.ident "foo", 2⟩, ⟨.closeParen, 3⟩]

/-- C3, witness for the amended theorem: on `(KILL foo)` the parser
produces the `DisallowedStatement` diagnostic whose `disallowed` span is
the keyword's span. -/
theorem c3_disallowed_first_token_witness :
    parse_inner_subquery_inner subFnsModel ⟨c3keywordTokens, 0, 0⟩ (some 0)
      = .error ⟨.disallowedStatement (.ident "foo") .closeParen 1, 1⟩ :=
  c3_disallowed_first_token subFnsModel ⟨c3keywordTokens, 0, 0⟩ 0 (.field "KILL")
    ⟨c3keywordTokens, 1, 1⟩ rfl rfl (by decide)

/-- C10: after a `|` opener, a `$param` token continues as a closure and
any other token as a mock; the mock grammar `|name:n|` parses to
`Mock::Count(name, n)` and `|name:a..b|` to `Mock::Range(name, a, b)`;
at the concrete claimed inputs, the tokenised `|test:1000|` parses to
`Mock::Count("test", 1000)` and `|test:1..1000|` to
`Mock::Range("test", 1, 1000)`. -/
theorem c10_pipe_dispatch_and_mocks :
    (∀ (sp : SubFns) (st : PState) (start : Span) (p : String),
        st.peek.kind = .dollarParam p →
        parse_closure_or_mock sp st start = sp.parse_closure st start)
    ∧ (∀ (sp : SubFns) (st : PState) (start : Span),
        (∀ p, st.peek.kind ≠ .dollarParam p) →
        parse_closure_or_mock sp st start
          = (parse_mock st start).map (fun r => (Value.mock r.1, r.2)))
    ∧ (∀ (name : String) (n : Nat) (s1 s2 s3 s4 l sp : Nat),
        (parse_mock ⟨[⟨.ident name, s1⟩, ⟨.colon, s2⟩, ⟨.digits n, s3⟩,
            ⟨.pipe, s4⟩], 0, l⟩ sp).map Prod.fst
          = .ok (.count name n))
    ∧ (∀ (name : String) (a b : Nat) (s1 s2 s3 s4 s5 s6 l sp : Nat),
        (parse_mock ⟨[⟨.ident name, s1⟩, ⟨.colon, s2⟩, ⟨.digits a, s3⟩,
            ⟨.dotdot, s4⟩, ⟨.digits b, s5⟩, ⟨.pipe, s6⟩], 0, l⟩ sp).map Prod.fst
          = .ok (.range name a b))
    ∧ tokenize "|test:1000|"
        = [⟨.pipe, 0⟩, ⟨.ident "test", 1⟩, ⟨.colon, 5⟩, ⟨.digits 1000, 6⟩, ⟨.pipe, 10⟩]
    ∧ (parse_closure_or_mock subFnsModel
          ⟨(tokenize "|test:1000|").drop 1, 0, 0⟩ 0).map Prod.fst
        = .ok (.mock (.count "test" 1000))
    ∧ tokenize "|test:1..1000|"
        = [⟨.pipe, 0⟩, ⟨.ident "test", 1⟩, ⟨.colon, 5⟩, ⟨.digits 1, 6⟩,
            ⟨.dotdot, 7⟩, ⟨.digits 1000, 9⟩, ⟨.pipe, 13⟩]
    ∧ (parse_closure_or_mock subFnsModel
          ⟨(tokenize "|test:1..1000|").drop 1, 0, 0⟩ 0).map Prod.fst
        = .ok (.mock (.range "test" 1 1000)) := by
  refine ⟨?_, ?_, fun name n s1 s2 s3 s4 l sp => rfl,
    fun name a b s1 s2 s3 s4 s5 s6 l sp => rfl, rfl, rfl, rfl, rfl⟩
  · intro sp st start p h
    simp [parse_closure_or_mock, h]
  · intro sp st start h
    cases hk : st.peek.kind <;>
      first
        | exact absurd hk (by intro hx; exact h _ hx)
        | simp [parse_closure_or_mock, hk]

/-- C10, witness: the dispatch evaluated at a concrete `$param` stream
(closure branch) and at the concrete mock stream of `|test:1000|`. -/
theorem c10_pipe_dispatch_and_mocks_witness :
    parse_closure_or_mock subFnsModel ⟨[⟨.dollarParam "x", 1⟩], 0, 0⟩ 0
      = subFnsModel.parse_closure ⟨[⟨.dollarParam "x", 1⟩], 0, 0⟩ 0
    ∧ parse_closure_or_mock subFnsModel ⟨(tokenize "|test:1000|").drop 1, 0, 0⟩ 0
      = (parse_mock ⟨(tokenize "|test:1000|").drop 1, 0, 0⟩ 0).map
          (fun r => (Value.mock r.1, r.2)) :=
  ⟨c10_pipe_dispatch_and_mocks.1 subFnsModel ⟨[⟨.dollarParam "x", 1⟩], 0, 0⟩ 0 "x" rfl,
    c10_pipe_dispatch_and_mocks.2.1 subFnsModel
      ⟨(tokenize "|test:1000|").drop 1, 0, 0⟩ 0 (fun _ h => TokenKind.noConfusion h)⟩

end Surreal
